import Mathlib

/-!
Shallow embedding of the login-authentication microservice.

The repository carries two variants of the service:
* `src/auth-service.js` (the primary variant, "v1" here): register + login,
  no refresh tokens, no password-length check, and a combined
  "no user / wrong password" failure branch computing
  `remaining = (a.remaining || 0) - 1`.
* a second variant embedded in `src/README.md` ("v2" here): register with a
  `password.length < 6` check, login with a separate wrong-password branch that
  re-queries the attempt tracker, and a refresh-token endpoint.

JavaScript `Map`s are embedded as association lists threaded explicitly
through each request handler; `Date.now()` is an explicit `now : Int`
parameter (milliseconds); `uuidv4()` is an explicit fresh-id parameter.
-/

namespace AuthService

/-! ## Association-list model of a JavaScript Map -/

/-- `Map.get(k)`: first binding for `k`, if any. -/
def mapGet {α : Type} : List (String × α) → String → Option α
  | [], _ => none
  | p :: rest, k => if p.1 = k then some p.2 else mapGet rest k

/-- `Map.set(k, v)`: replace the binding for `k` in place, or append it. -/
def mapSet {α : Type} : List (String × α) → String → α → List (String × α)
  | [], k, v => [(k, v)]
  | p :: rest, k, v => if p.1 = k then (k, v) :: rest else p :: mapSet rest k v

/-- `Map.delete(k)`: drop every binding for `k`. -/
def mapDelete {α : Type} : List (String × α) → String → List (String × α)
  | [], _ => []
  | p :: rest, k => if p.1 = k then mapDelete rest k else p :: mapDelete rest k

/-! ## Configuration constants (src/auth-service.js lines 37-40) -/

def JWT_SECRET : String := "dev-secret"
def ACCESS_EXP : String := "15m"
def MAX_ATTEMPTS : Nat := 5
def LOCKOUT_MS : Int := 15 * 60 * 1000

/-! ## Data model -/

/-- One entry of the `attempts` map: `{ count, last }` (v2 calls the second
field `lastAttempt`). `last` is a millisecond timestamp. -/
structure AttemptEntry where
  count : Nat
  last : Int
deriving Repr, DecidableEq

abbrev AttemptsMap := List (String × AttemptEntry)

/-- A stored user record: `{ id, email, name, password, lastLogin }`. -/
structure UserRecord where
  id : String
  email : String
  name : String
  password : String
  lastLogin : Option String
deriving Repr, DecidableEq

abbrev UsersMap := List (String × UserRecord)

/-- Stand-in for `new Date(now).toISOString()`: an injective rendering of the
timestamp; no claim depends on the concrete format. -/
def dateToISOString (now : Int) : String := toString now

/-! ## AttemptTracker (src/auth-service.js lines 45-59) -/

/-- Result of `checkAttempts`: `{ allowed, remaining }`. -/
structure CheckResult where
  allowed : Bool
  remaining : Nat
deriving Repr, DecidableEq

/-- `checkAttempts(email)` from src/auth-service.js lines 45-51.  The source
mutates the shared `attempts` map (deleting expired state); here the updated
map is returned as the second component. -/
def checkAttempts (attempts : AttemptsMap) (email : String) (now : Int) :
    CheckResult × AttemptsMap :=
  match mapGet attempts email with
  | none => (⟨true, MAX_ATTEMPTS⟩, attempts)
  | some a =>
    if now - a.last > LOCKOUT_MS then
      (⟨true, MAX_ATTEMPTS⟩, mapDelete attempts email)
    else if a.count ≥ MAX_ATTEMPTS then
      (⟨false, 0⟩, attempts)
    else
      (⟨true, MAX_ATTEMPTS - a.count⟩, attempts)

/-- `recordAttempt(email, ok)` from src/auth-service.js lines 53-59. -/
def recordAttempt (attempts : AttemptsMap) (email : String) (ok : Bool)
    (now : Int) : AttemptsMap :=
  if ok then mapDelete attempts email
  else
    let prev := (mapGet attempts email).getD ⟨0, 0⟩
    mapSet attempts email ⟨prev.count + 1, now⟩

/-! ## Token issuance (v1) -/

/-- A v1 access token: `jwt.sign({ email, userId }, JWT_SECRET,
{ expiresIn: ACCESS_EXP })` modelled as its claims sealed with the secret. -/
structure TokenV1 where
  email : String
  userId : String
  secret : String
  expiresIn : String
deriving Repr, DecidableEq

/-- `generateAccess(email, id)` from src/auth-service.js lines 61-63. -/
def generateAccess (email id : String) : TokenV1 :=
  ⟨email, id, JWT_SECRET, ACCESS_EXP⟩

/-! ## Service state and request handlers (v1) -/

structure ServiceState where
  users : UsersMap
  attempts : AttemptsMap
deriving Repr, DecidableEq

inductive RegisterResponse where
  /-- 400 with the given error message. -/
  | invalidInput (error : String)
  /-- 409 `{ error: 'user exists' }`. -/
  | conflict
  /-- 201 `{ message, user: { id, email, name } }`. -/
  | created (id : String) (email : String) (name : String)
deriving Repr, DecidableEq

/-- `POST /auth/register` from src/auth-service.js lines 66-74.  `newId` is
the `uuidv4()` result; the optional request `name` is `Option String`
(`name || ''`). -/
def register (st : ServiceState) (newId : String) (email password : String)
    (name : Option String) : RegisterResponse × ServiceState :=
  if email = "" ∨ password = "" then
    (.invalidInput "email and password required", st)
  else if (mapGet st.users email).isSome then
    (.conflict, st)
  else
    let newUser : UserRecord := ⟨newId, email, name.getD "", password, none⟩
    (.created newId email (name.getD ""),
     { st with users := mapSet st.users email newUser })

/-- Models `(a.remaining || 0) - 1` on the 401 branch of v1 login. -/
def remainingAfterFail (r : Nat) : Int :=
  (if r = 0 then 0 else (r : Int)) - 1

inductive LoginResponse where
  /-- 400 `{ error: 'email and password required' }`. -/
  | invalidInput
  /-- 429 `{ error: 'too many attempts' }`. -/
  | tooManyAttempts
  /-- 401 `{ error: 'invalid credentials', remaining }`. -/
  | invalidCredentials (remaining : Int)
  /-- 200 `{ accessToken, expiresIn }`. -/
  | success (accessToken : TokenV1) (expiresIn : String)
deriving Repr, DecidableEq

/-- `POST /auth/login` from src/auth-service.js lines 76-93.  The source's
combined `if (!user || user.password !== password)` branch is split into the
`none` case of the lookup and the mismatch test, both with the same body. -/
def login (st : ServiceState) (email password : String) (now : Int) :
    LoginResponse × ServiceState :=
  if email = "" ∨ password = "" then (.invalidInput, st)
  else
    let c := checkAttempts st.attempts email now
    if c.1.allowed = false then
      (.tooManyAttempts, { st with attempts := c.2 })
    else
      match mapGet st.users email with
      | none =>
        (.invalidCredentials (remainingAfterFail c.1.remaining),
         { st with attempts := recordAttempt c.2 email false now })
      | some user =>
        if user.password ≠ password then
          (.invalidCredentials (remainingAfterFail c.1.remaining),
           { st with attempts := recordAttempt c.2 email false now })
        else
          (.success (generateAccess user.email user.id) ACCESS_EXP,
           { users := mapSet st.users email
               { user with lastLogin := some (dateToISOString now) },
             attempts := recordAttempt c.2 email true now })

/-! ## Variant 2: the service embedded in src/README.md (register with a
password-length check, login that re-queries the tracker on a wrong password,
and a refresh endpoint backed by a token registry) -/

def JWT_REFRESH_SECRET : String := "dev-refresh-secret"
def ACCESS_TOKEN_EXPIRY : String := "15m"
def MAX_LOGIN_ATTEMPTS : Nat := 5
def LOCKOUT_TIME : Int := 15 * 60 * 1000

/-- Access-token lifetime (`'15m'`) in seconds. -/
def ACCESS_TTL_SEC : Int := 15 * 60

/-- Refresh-token lifetime (`'7d'`) in seconds. -/
def REFRESH_TTL_SEC : Int := 7 * 24 * 60 * 60

/-- The claims object of a v2 JWT: `{ userId, email, tokenId?, type }` plus
the expiry the library embeds (`exp`, seconds since epoch). -/
structure JwtClaims where
  userId : String
  email : String
  tokenId : Option String
  type : String
  exp : Int
deriving Repr, DecidableEq

/-- Modelled from the spec: the external `jsonwebtoken` library.  A signed
token is its claims sealed with the signing secret; two tokens are byte-equal
exactly when claims and secret coincide. -/
structure SignedToken where
  claims : JwtClaims
  secret : String
deriving Repr, DecidableEq

/-- Modelled from the spec: `jwt.sign(claims, secret)`. -/
def jwtSign (claims : JwtClaims) (secret : String) : SignedToken :=
  ⟨claims, secret⟩

/-- The `exp` claim the library computes from `expiresIn`: issuance time
(milliseconds) scaled to seconds plus the lifetime. -/
def expAt (now ttlSec : Int) : Int := now / 1000 + ttlSec

/-- Modelled from the spec: `jwt.verify(token, secret)` at time `now`
(milliseconds) — succeeds with the claims iff the seal matches the secret and
the embedded expiry has not passed. -/
def jwtVerify (tok : SignedToken) (secret : String) (now : Int) :
    Option JwtClaims :=
  if tok.secret = secret ∧ now < tok.claims.exp * 1000 then some tok.claims
  else none

/-- Result of `generateTokens(userId, email)` (README lines 203-208);
`newTokenId` stands for the `uuidv4()` call. -/
structure TokenPair where
  accessToken : SignedToken
  refreshToken : SignedToken
  tokenId : String
deriving Repr, DecidableEq

def generateTokens (userId email newTokenId : String) (now : Int) : TokenPair :=
  { accessToken :=
      jwtSign ⟨userId, email, none, "access", expAt now ACCESS_TTL_SEC⟩
        JWT_SECRET,
    refreshToken :=
      jwtSign ⟨userId, email, some newTokenId, "refresh",
          expAt now REFRESH_TTL_SEC⟩
        JWT_REFRESH_SECRET,
    tokenId := newTokenId }

/-- Result of `checkLoginAttempts`: `{ allowed, remaining, minutesLeft? }`. -/
structure CheckResultV2 where
  allowed : Bool
  remaining : Nat
  minutesLeft : Option Int
deriving Repr, DecidableEq

/-- `checkLoginAttempts(email)` from README lines 210-222 (the v2 twin of
`checkAttempts`; the attempt entry's second field is named `lastAttempt`
there).  `Math.ceil(x / 60000)` is `(x + 59999) / 60000` on the nonnegative
values this branch produces. -/
def checkLoginAttempts (loginAttempts : AttemptsMap) (email : String)
    (now : Int) : CheckResultV2 × AttemptsMap :=
  match mapGet loginAttempts email with
  | none => (⟨true, MAX_LOGIN_ATTEMPTS, none⟩, loginAttempts)
  | some attempts =>
    if now - attempts.last > LOCKOUT_TIME then
      (⟨true, MAX_LOGIN_ATTEMPTS, none⟩, mapDelete loginAttempts email)
    else if attempts.count ≥ MAX_LOGIN_ATTEMPTS then
      (⟨false, 0, some ((LOCKOUT_TIME - (now - attempts.last) + 59999) / 60000)⟩,
       loginAttempts)
    else
      (⟨true, MAX_LOGIN_ATTEMPTS - attempts.count, none⟩, loginAttempts)

/-- `recordLoginAttempt(email, success)` from README lines 224-230. -/
def recordLoginAttempt (loginAttempts : AttemptsMap) (email : String)
    (success : Bool) (now : Int) : AttemptsMap :=
  if success then mapDelete loginAttempts email
  else
    let prev := (mapGet loginAttempts email).getD ⟨0, 0⟩
    mapSet loginAttempts email ⟨prev.count + 1, now⟩

/-- `verifyPassword(password, stored)` from README lines 199-201: a direct
equality comparison. -/
def verifyPassword (password stored : String) : Bool :=
  password == stored

/-- A live entry of the `refreshTokens` registry:
`{ token, userId, expiresAt }`. -/
structure RefreshEntry where
  token : SignedToken
  userId : String
  expiresAt : Int
deriving Repr, DecidableEq

structure ServiceStateV2 where
  users : UsersMap
  refreshTokens : List (String × RefreshEntry)
  loginAttempts : AttemptsMap
deriving Repr, DecidableEq

/-- `POST /auth/register` from README lines 235-250 (enforces the
minimum password length). -/
def registerV2 (st : ServiceStateV2) (newId : String) (email password : String)
    (name : Option String) : RegisterResponse × ServiceStateV2 :=
  if email = "" ∨ password = "" then
    (.invalidInput "Email and password required", st)
  else if password.length < 6 then
    (.invalidInput "Password too short (>=6)", st)
  else if (mapGet st.users email).isSome then
    (.conflict, st)
  else
    let newUser : UserRecord := ⟨newId, email, name.getD "", password, none⟩
    (.created newId email (name.getD ""),
     { st with users := mapSet st.users email newUser })

inductive LoginResponseV2 where
  /-- 400 `{ error: 'Email and password required' }`. -/
  | invalidInput
  /-- 429 `{ error: 'Too many attempts', minutesLeft }`. -/
  | tooManyAttempts (minutesLeft : Option Int)
  /-- 401 `{ error: 'Invalid credentials', attemptsRemaining }`. -/
  | invalidCredentials (attemptsRemaining : Int)
  /-- 200 `{ accessToken, refreshToken, expiresIn }`. -/
  | success (accessToken refreshToken : SignedToken) (expiresIn : String)
deriving Repr, DecidableEq

/-- `POST /auth/login` from README lines 253-287: a missing user is charged
`attempt.remaining - 1` arithmetically, while a wrong password records the
failure and then re-queries `checkLoginAttempts` for the reported count. -/
def loginV2 (st : ServiceStateV2) (email password : String) (now : Int)
    (newTokenId : String) : LoginResponseV2 × ServiceStateV2 :=
  if email = "" ∨ password = "" then (.invalidInput, st)
  else
    let c := checkLoginAttempts st.loginAttempts email now
    if c.1.allowed = false then
      (.tooManyAttempts c.1.minutesLeft, { st with loginAttempts := c.2 })
    else
      match mapGet st.users email with
      | none =>
        (.invalidCredentials ((c.1.remaining : Int) - 1),
         { st with loginAttempts := recordLoginAttempt c.2 email false now })
      | some user =>
        if verifyPassword password user.password = false then
          let m2 := recordLoginAttempt c.2 email false now
          let a := checkLoginAttempts m2 email now
          (.invalidCredentials ((a.1.remaining : Int)),
           { st with loginAttempts := a.2 })
        else
          let toks := generateTokens user.id user.email newTokenId now
          let entry : RefreshEntry :=
            ⟨toks.refreshToken, user.id, toks.refreshToken.claims.exp * 1000⟩
          (.success toks.accessToken toks.refreshToken ACCESS_TOKEN_EXPIRY,
           { users := mapSet st.users email
               { user with lastLogin := some (dateToISOString now) },
             refreshTokens := mapSet st.refreshTokens toks.tokenId entry,
             loginAttempts := recordLoginAttempt c.2 email true now })

inductive RefreshResponse where
  /-- 400 `{ error: 'Refresh token required' }`. -/
  | missingToken
  /-- 401 `{ error: 'Invalid or expired refresh token' }`. -/
  | invalidToken
  /-- 401 `{ error: 'Refresh token not found' }`. -/
  | tokenNotFound
  /-- 200 `{ accessToken, expiresIn }`. -/
  | ok (accessToken : SignedToken) (expiresIn : String)
deriving Repr, DecidableEq

/-- `POST /auth/refresh` from README lines 290-309. -/
def refresh (st : ServiceStateV2) (refreshToken : Option SignedToken)
    (now : Int) : RefreshResponse × ServiceStateV2 :=
  match refreshToken with
  | none => (.missingToken, st)
  | some tok =>
    match jwtVerify tok JWT_REFRESH_SECRET now with
    | none => (.invalidToken, st)
    | some decoded =>
      match decoded.tokenId.bind (mapGet st.refreshTokens) with
      | none => (.tokenNotFound, st)
      | some stored =>
        if stored.token ≠ tok then (.tokenNotFound, st)
        else
          (.ok (jwtSign ⟨decoded.userId, decoded.email, none, "access",
                  expAt now ACCESS_TTL_SEC⟩ JWT_SECRET)
             ACCESS_TOKEN_EXPIRY,
           st)

/-! ## Persistence (src/auth-service.js lines 14-32) -/

/-- The JSON values `users.json` traffics in. -/
inductive Json where
  | null
  | str (s : String)
  | arr (items : List Json)
  | obj (fields : List (String × Json))

/-- How `JSON.stringify` renders one stored `UserRecord`. -/
def userToJson (u : UserRecord) : Json :=
  .obj [("id", .str u.id), ("email", .str u.email), ("name", .str u.name),
        ("password", .str u.password),
        ("lastLogin", match u.lastLogin with
          | none => .null
          | some s => .str s)]

/-- Inverse of `userToJson`: recover a `UserRecord` from its JSON shape. -/
def userFromJson : Json → Option UserRecord
  | .obj [("id", .str id), ("email", .str email), ("name", .str name),
          ("password", .str password), ("lastLogin", ll)] =>
    match ll with
    | .null => some ⟨id, email, name, password, none⟩
    | .str s => some ⟨id, email, name, password, some s⟩
    | _ => none
  | _ => none

/-- `saveUsers(users)`: `JSON.stringify(Array.from(users.entries()))` — the
user map rendered as a JSON array of two-element `[identity, record]`
arrays.  The byte-level rendering of that JSON value is the external
`JSON.stringify`. -/
def saveUsers (users : UsersMap) : Json :=
  .arr (users.map fun p => .arr [.str p.1, userToJson p.2])

/-- Decode one `[identity, record]` entry. -/
def entryFromJson : Json → Option (String × UserRecord)
  | .arr [.str k, v] => (userFromJson v).map fun u => (k, u)
  | _ => none

/-- Decode a list of `[identity, record]` entries, failing on the first
malformed one. -/
def decodeEntries : List Json → Option UsersMap
  | [] => some []
  | j :: rest =>
    match entryFromJson j, decodeEntries rest with
    | some p, some ps => some (p :: ps)
    | _, _ => none

/-- The decoding part of `loadUsers()`: `new Map(JSON.parse(data))` on a
parsed JSON value. -/
def decodeUsers : Json → Option UsersMap
  | .arr entries => decodeEntries entries
  | _ => none

/-- `loadUsers()` from src/auth-service.js lines 14-24 applied to the parsed
contents of `users.json`: any failure is caught and yields the empty map. -/
def loadUsers (j : Json) : UsersMap :=
  (decodeUsers j).getD []

/-! ## Basic lemmas about the Map model -/

theorem mapGet_mapDelete {α : Type} (m : List (String × α)) (k : String) :
    mapGet (mapDelete m k) k = none := by
  induction m with
  | nil => rfl
  | cons p rest ih =>
    by_cases h : p.1 = k
    · simpa [mapDelete, h] using ih
    · simp [mapDelete, mapGet, h, ih]

theorem mapGet_mapSet_self {α : Type} (m : List (String × α)) (k : String)
    (v : α) : mapGet (mapSet m k v) k = some v := by
  induction m with
  | nil => simp [mapSet, mapGet]
  | cons p rest ih =>
    by_cases h : p.1 = k
    · simp [mapSet, mapGet, h]
    · simp [mapSet, mapGet, h, ih]

theorem mem_mapSet {α : Type} {m : List (String × α)} {k : String} {v : α}
    {p : String × α} (hp : p ∈ mapSet m k v) : p = (k, v) ∨ p ∈ m := by
  induction m with
  | nil => simpa [mapSet] using hp
  | cons q rest ih =>
    by_cases h : q.1 = k
    · simp only [mapSet, if_pos h, List.mem_cons] at hp
      rcases hp with hp | hp
      · exact Or.inl hp
      · exact Or.inr (List.mem_cons_of_mem _ hp)
    · simp only [mapSet, if_neg h, List.mem_cons] at hp
      rcases hp with hp | hp
      · exact Or.inr (hp ▸ List.mem_cons_self _ _)
      · rcases ih hp with h1 | h1
        · exact Or.inl h1
        · exact Or.inr (List.mem_cons_of_mem _ h1)

theorem mem_mapDelete {α : Type} {m : List (String × α)} {k : String}
    {p : String × α} (hp : p ∈ mapDelete m k) : p ∈ m := by
  induction m with
  | nil => simp [mapDelete] at hp
  | cons q rest ih =>
    by_cases h : q.1 = k
    · simp only [mapDelete, if_pos h] at hp
      exact List.mem_cons_of_mem _ (ih hp)
    · simp only [mapDelete, if_neg h, List.mem_cons] at hp
      rcases hp with hp | hp
      · exact hp ▸ List.mem_cons_self _ _
      · exact List.mem_cons_of_mem _ (ih hp)

theorem mapGet_mem {α : Type} {m : List (String × α)} {k : String} {v : α}
    (h : mapGet m k = some v) : (k, v) ∈ m := by
  induction m with
  | nil => simp [mapGet] at h
  | cons q rest ih =>
    by_cases hq : q.1 = k
    · rw [mapGet, if_pos hq] at h
      injection h with h2
      have hqv : q = (k, v) := by
        obtain ⟨a, b⟩ := q
        cases hq
        cases h2
        rfl
      exact hqv ▸ List.mem_cons_self _ _
    · rw [mapGet, if_neg hq] at h
      exact List.mem_cons_of_mem _ (ih h)

/-! ## Claim theorems -/

/-- C1: once an identity's attempt state has reached exactly
`MAX_ATTEMPTS = 5` consecutive failures and the lockout window has not
elapsed since the last failure, the next login call — for every user table
and every presented password, including the matching one — returns
`tooManyAttempts` (429) and leaves the whole service state unchanged: no
credential comparison is observable and no attempt is recorded. -/
theorem login_locked_no_check (st : ServiceState) (email password : String)
    (now : Int) (a : AttemptEntry)
    (hemail : email ≠ "") (hpw : password ≠ "")
    (hget : mapGet st.attempts email = some a)
    (hcount : a.count = MAX_ATTEMPTS)
    (hwin : now - a.last ≤ LOCKOUT_MS) :
    login st email password now = (.tooManyAttempts, st) := by
  have hc : checkAttempts st.attempts email now = (⟨false, 0⟩, st.attempts) := by
    simp only [checkAttempts, hget]
    rw [if_neg (not_lt.mpr hwin), if_pos (by simp [hcount])]
  simp only [login, hc]
  rw [if_neg (by simp [hemail, hpw])]
  rfl

/-- C1 witness: a locked identity with the correct password still receives
429 with the state untouched. -/
theorem login_locked_no_check_witness :
    login ⟨[("a@x.com", ⟨"id1", "a@x.com", "Ada", "secret1", none⟩)],
           [("a@x.com", ⟨5, 100⟩)]⟩ "a@x.com" "secret1" 200 =
      (.tooManyAttempts,
       ⟨[("a@x.com", ⟨"id1", "a@x.com", "Ada", "secret1", none⟩)],
        [("a@x.com", ⟨5, 100⟩)]⟩) :=
  login_locked_no_check _ "a@x.com" "secret1" 200 ⟨5, 100⟩
    (by decide) (by decide) (by decide) rfl (by decide)

/-- C2 counterexample: a `check` observing the tracker exactly at the window
boundary (`now - lastFailure = LOCKOUT_MS`) does NOT return
`allowed = true, remaining = MAX_ATTEMPTS`: with a count of 5 it returns
`allowed = false, remaining = 0`, because the source's expiry test is the
strict `now - a.last > LOCKOUT_MS`. -/
theorem checkAttempts_boundary_cex :
    ¬ ((checkAttempts [("a@x.com", ⟨5, 0⟩)] "a@x.com" LOCKOUT_MS).1 =
       (⟨true, MAX_ATTEMPTS⟩ : CheckResult)) := by decide

/-- C2 (amended): a `check` call exactly at the window boundary
(`now - lastFailure = LOCKOUT_MS`) treats the state as still live (expiry
requires the strict inequality): the map is left untouched and the call
returns `allowed = false, remaining = 0` when the count has reached
`MAX_ATTEMPTS`, and `allowed = true, remaining = MAX_ATTEMPTS - count`
otherwise. -/
theorem checkAttempts_at_boundary (m : AttemptsMap) (email : String)
    (now : Int) (a : AttemptEntry)
    (hget : mapGet m email = some a)
    (hb : now - a.last = LOCKOUT_MS) :
    checkAttempts m email now =
      (if a.count ≥ MAX_ATTEMPTS then ((⟨false, 0⟩ : CheckResult), m)
       else (⟨true, MAX_ATTEMPTS - a.count⟩, m)) := by
  simp only [checkAttempts, hget, hb]
  rw [if_neg (lt_irrefl LOCKOUT_MS)]

/-- C2 (amended) witness: at the exact boundary with a full count the call
returns the locked result. -/
theorem checkAttempts_at_boundary_witness :
    checkAttempts [("a@x.com", AttemptEntry.mk 5 0)] "a@x.com" LOCKOUT_MS =
      (if (5 : Nat) ≥ MAX_ATTEMPTS
       then ((⟨false, 0⟩ : CheckResult), [("a@x.com", AttemptEntry.mk 5 0)])
       else (⟨true, MAX_ATTEMPTS - 5⟩, [("a@x.com", AttemptEntry.mk 5 0)])) :=
  checkAttempts_at_boundary _ "a@x.com" LOCKOUT_MS ⟨5, 0⟩ (by decide) (by decide)

/-- C4: an attempt state whose last failure is strictly older than the
lockout window is deleted by `check` as a side effect — whatever its count —
and the call reports `allowed = true, remaining = MAX_ATTEMPTS`; the deleted
state is gone, so any later `check` for that identity again reports
`remaining = MAX_ATTEMPTS`. -/
theorem checkAttempts_expired_resets (m : AttemptsMap) (email : String)
    (now : Int) (a : AttemptEntry)
    (hget : mapGet m email = some a)
    (hexp : now - a.last > LOCKOUT_MS) :
    checkAttempts m email now = (⟨true, MAX_ATTEMPTS⟩, mapDelete m email) ∧
    mapGet (mapDelete m email) email = none ∧
    ∀ now2, checkAttempts (mapDelete m email) email now2 =
      (⟨true, MAX_ATTEMPTS⟩, mapDelete m email) := by
  refine ⟨?_, mapGet_mapDelete m email, ?_⟩
  · simp only [checkAttempts, hget]
    rw [if_pos hexp]
  · intro now2
    simp only [checkAttempts, mapGet_mapDelete]

/-- C4 witness: a state with count 7 whose failure is older than the window
is reset. -/
theorem checkAttempts_expired_resets_witness :
    checkAttempts [("a@x.com", AttemptEntry.mk 7 0)] "a@x.com" 1000000 =
      (⟨true, MAX_ATTEMPTS⟩,
       mapDelete [("a@x.com", AttemptEntry.mk 7 0)] "a@x.com") :=
  (checkAttempts_expired_resets _ "a@x.com" 1000000 ⟨7, 0⟩
    (by decide) (by decide)).1

/-- A `check` for an identity with no stored attempt state allows the call
with the full budget and leaves the map untouched. -/
theorem checkAttempts_of_none {m : AttemptsMap} {email : String}
    (h : mapGet m email = none) (now : Int) :
    checkAttempts m email now = (⟨true, MAX_ATTEMPTS⟩, m) := by
  simp only [checkAttempts, h]

/-- Recording a success erases the identity's attempt state. -/
theorem recordAttempt_true_get (m : AttemptsMap) (email : String) (now : Int) :
    mapGet (recordAttempt m email true now) email = none := by
  simp [recordAttempt, mapGet_mapDelete]

/-- C5: a successful login removes the identity's attempt state entirely
(the failure count is zero because no state is stored at all), and the first
failed attempt after that success — any wrong password, at any later time —
is reported with `remaining = 4`. -/
theorem login_success_resets (st : ServiceState) (email password : String)
    (now : Int) (u : UserRecord)
    (hemail : email ≠ "") (hpw : password ≠ "")
    (hallowed : (checkAttempts st.attempts email now).1.allowed = true)
    (hu : mapGet st.users email = some u)
    (hmatch : u.password = password) :
    ∃ st1 tok, login st email password now = (.success tok ACCESS_EXP, st1) ∧
      mapGet st1.attempts email = none ∧
      ∀ pw2 now2, pw2 ≠ "" → pw2 ≠ password →
        (login st1 email pw2 now2).1 = .invalidCredentials 4 := by
  subst hmatch
  have hlogin : login st email u.password now =
      (.success (generateAccess u.email u.id) ACCESS_EXP,
       { users := mapSet st.users email
           { u with lastLogin := some (dateToISOString now) },
         attempts :=
           recordAttempt (checkAttempts st.attempts email now).2 email true now }) := by
    simp only [login]
    rw [if_neg (by simp [hemail, hpw])]
    simp only [hu, hallowed]
    rw [if_neg (by simp), if_neg (by simp)]
  have hnone : mapGet
      (recordAttempt (checkAttempts st.attempts email now).2 email true now)
      email = none := recordAttempt_true_get _ _ _
  refine ⟨_, _, hlogin, hnone, ?_⟩
  intro pw2 now2 hpw2 hne
  have hc2 := checkAttempts_of_none hnone now2
  have hu1 := mapGet_mapSet_self st.users email
    { u with lastLogin := some (dateToISOString now) }
  simp only [login]
  rw [if_neg (by simp [hemail, hpw2])]
  simp [hc2, hu1, Ne.symm hne, remainingAfterFail, MAX_ATTEMPTS]

/-- C5 witness: a concrete successful login followed by a wrong-password
attempt reporting `remaining = 4`. -/
theorem login_success_resets_witness :
    ∃ st1 tok,
      login ⟨[("a@x.com", ⟨"id1", "a@x.com", "Ada", "secret1", none⟩)], []⟩
        "a@x.com" "secret1" 0 = (.success tok ACCESS_EXP, st1) ∧
      mapGet st1.attempts "a@x.com" = none ∧
      ∀ pw2 now2, pw2 ≠ "" → pw2 ≠ "secret1" →
        (login st1 "a@x.com" pw2 now2).1 = .invalidCredentials 4 :=
  login_success_resets _ "a@x.com" "secret1" 0
    ⟨"id1", "a@x.com", "Ada", "secret1", none⟩
    (by decide) (by decide) (by decide) (by decide) rfl

/-- C7: registering a free identity stores the new record, and a second
`register` call for the same identity returns `conflict` (409) while leaving
the state — in particular the record created by the first call — exactly as
it was. -/
theorem register_twice_conflict (st : ServiceState)
    (email password password2 : String) (name name2 : Option String)
    (id1 id2 : String)
    (hemail : email ≠ "") (hpw : password ≠ "") (hpw2 : password2 ≠ "")
    (hfree : mapGet st.users email = none) :
    ∃ st1, register st id1 email password name =
        (.created id1 email (name.getD ""), st1) ∧
      register st1 id2 email password2 name2 = (.conflict, st1) ∧
      mapGet st1.users email = some ⟨id1, email, name.getD "", password, none⟩ := by
  refine ⟨{ st with users := mapSet st.users email ⟨id1, email, name.getD "", password, none⟩ }, ?_, ?_, ?_⟩
  · simp only [register]
    rw [if_neg (by simp [hemail, hpw])]
    simp [hfree]
  · simp only [register]
    rw [if_neg (by simp [hemail, hpw2])]
    simp [mapGet_mapSet_self]
  · exact mapGet_mapSet_self _ _ _

/-- C7 witness: a concrete duplicate registration. -/
theorem register_twice_conflict_witness :
    ∃ st1,
      register ⟨[], []⟩ "id1" "a@x.com" "secret1" (some "Ada") =
        (.created "id1" "a@x.com" ((some "Ada").getD ""), st1) ∧
      register st1 "id2" "a@x.com" "other1" none = (.conflict, st1) ∧
      mapGet st1.users "a@x.com" =
        some ⟨"id1", "a@x.com", (some "Ada").getD "", "secret1", none⟩ :=
  register_twice_conflict ⟨[], []⟩ "a@x.com" "secret1" "other1"
    (some "Ada") none "id1" "id2" (by decide) (by decide) (by decide) rfl

/-- C8: in the variant that enforces the minimum password length (the
service embedded in src/README.md), a register request with a non-empty
password shorter than 6 characters fails with the password-too-short
`invalidInput` error and creates no user record — the state is returned
unchanged. -/
theorem registerV2_short_password (st : ServiceStateV2)
    (newId email password : String) (name : Option String)
    (hemail : email ≠ "") (hpw : password ≠ "")
    (hshort : password.length < 6) :
    registerV2 st newId email password name =
      (.invalidInput "Password too short (>=6)", st) := by
  simp only [registerV2]
  rw [if_neg (by simp [hemail, hpw]), if_pos hshort]

/-- C8 witness: a 3-character password is rejected with the state
unchanged. -/
theorem registerV2_short_password_witness :
    registerV2 ⟨[], [], []⟩ "id1" "a@x.com" "abc" none =
      (.invalidInput "Password too short (>=6)", ⟨[], [], []⟩) :=
  registerV2_short_password ⟨[], [], []⟩ "id1" "a@x.com" "abc" none
    (by decide) (by decide) (by decide)

/-- C3: on a v2 login attempt that passes the attempt check, a missing user
record is charged arithmetically — the response carries the pre-check
`remaining` decremented by one, with no re-query — while an existing record
with a mismatching secret first records the failure and then reports the
`remaining` obtained by re-querying `checkLoginAttempts`. -/
theorem loginV2_failure_remaining (st : ServiceStateV2)
    (email password : String) (now : Int) (newTokenId : String)
    (c : CheckResultV2) (m1 : AttemptsMap)
    (hemail : email ≠ "") (hpw : password ≠ "")
    (hc : checkLoginAttempts st.loginAttempts email now = (c, m1))
    (hallowed : c.allowed = true) :
    (mapGet st.users email = none →
      loginV2 st email password now newTokenId =
        (.invalidCredentials ((c.remaining : Int) - 1),
         { st with loginAttempts := recordLoginAttempt m1 email false now })) ∧
    (∀ u, mapGet st.users email = some u → u.password ≠ password →
      loginV2 st email password now newTokenId =
        (.invalidCredentials
           (((checkLoginAttempts (recordLoginAttempt m1 email false now)
                email now).1.remaining : Int)),
         { st with loginAttempts :=
            (checkLoginAttempts (recordLoginAttempt m1 email false now)
               email now).2 })) := by
  constructor
  · intro hnone
    simp only [loginV2, hc]
    rw [if_neg (by simp [hemail, hpw])]
    simp [hnone, hallowed]
  · intro u hu hne
    simp only [loginV2, hc]
    rw [if_neg (by simp [hemail, hpw])]
    simp [hu, hallowed, verifyPassword, Ne.symm hne]

/-- C3 witness: a wrong password against an existing user is answered with
the re-queried remaining count (here 4). -/
theorem loginV2_failure_remaining_witness :
    loginV2 ⟨[("a@x.com", ⟨"id1", "a@x.com", "Ada", "secret1", none⟩)], [], []⟩
        "a@x.com" "wrongpw" 0 "tid1" =
      (.invalidCredentials
         (((checkLoginAttempts (recordLoginAttempt [] "a@x.com" false 0)
              "a@x.com" 0).1.remaining : Int)),
       ⟨[("a@x.com", ⟨"id1", "a@x.com", "Ada", "secret1", none⟩)], [],
        (checkLoginAttempts (recordLoginAttempt [] "a@x.com" false 0)
           "a@x.com" 0).2⟩) :=
  (loginV2_failure_remaining
      ⟨[("a@x.com", ⟨"id1", "a@x.com", "Ada", "secret1", none⟩)], [], []⟩
      "a@x.com" "wrongpw" 0 "tid1" ⟨true, 5, none⟩ []
      (by decide) (by decide) rfl rfl).2
    ⟨"id1", "a@x.com", "Ada", "secret1", none⟩ rfl (by decide)

/-- Decoding inverts encoding for a single user record. -/
theorem userFromJson_userToJson (u : UserRecord) :
    userFromJson (userToJson u) = some u := by
  obtain ⟨id, email, name, password, lastLogin⟩ := u
  cases lastLogin <;> rfl

/-- C6: saving the stored user collection and loading it back yields the
identical mapping — the same identities bound, in the same order, to records
with the same id, name, secret and lastLogin. -/
theorem loadUsers_saveUsers (users : UsersMap) :
    loadUsers (saveUsers users) = users := by
  have h : decodeEntries (users.map fun p => Json.arr [.str p.1, userToJson p.2]) =
      some users := by
    induction users with
    | nil => rfl
    | cons p rest ih =>
      obtain ⟨k, u⟩ := p
      simp only [List.map, decodeEntries, entryFromJson, userFromJson_userToJson,
        Option.map_some', ih]
  simp [loadUsers, saveUsers, decodeUsers, h]

/-- C9: on a v2 refresh request, a token failing signature/expiry
verification is answered `invalidToken`; a verified token whose embedded
tokenId has no registry entry, or whose registry entry stores a different
raw token, is answered `tokenNotFound`; otherwise a fresh access token for
the token's own identity is issued — and in every case the state, the token
registry included, is returned unchanged. -/
theorem refresh_spec (st : ServiceStateV2) (tok : SignedToken) (now : Int) :
    (jwtVerify tok JWT_REFRESH_SECRET now = none →
      refresh st (some tok) now = (.invalidToken, st)) ∧
    (∀ d, jwtVerify tok JWT_REFRESH_SECRET now = some d →
      d.tokenId.bind (mapGet st.refreshTokens) = none →
      refresh st (some tok) now = (.tokenNotFound, st)) ∧
    (∀ d stored, jwtVerify tok JWT_REFRESH_SECRET now = some d →
      d.tokenId.bind (mapGet st.refreshTokens) = some stored →
      stored.token ≠ tok →
      refresh st (some tok) now = (.tokenNotFound, st)) ∧
    (∀ d stored, jwtVerify tok JWT_REFRESH_SECRET now = some d →
      d.tokenId.bind (mapGet st.refreshTokens) = some stored →
      stored.token = tok →
      refresh st (some tok) now =
        (.ok (jwtSign ⟨d.userId, d.email, none, "access",
                expAt now ACCESS_TTL_SEC⟩ JWT_SECRET)
           ACCESS_TOKEN_EXPIRY, st)) := by
  refine ⟨?_, ?_, ?_, ?_⟩
  · intro hver
    simp [refresh, hver]
  · intro d hver hlook
    simp [refresh, hver, hlook]
  · intro d stored hver hlook hne
    simp [refresh, hver, hlook, hne]
  · intro d stored hver hlook heq
    simp [refresh, hver, hlook, heq]

/-- C9 witness: the three refresh outcomes at concrete inputs — a badly
sealed token, a verified token absent from the registry, and a
registry-confirmed token. -/
theorem refresh_spec_witness :
    refresh ⟨[], [], []⟩
        (some ⟨⟨"uid1", "a@x.com", some "tid1", "refresh", 1000⟩, "bad"⟩) 0 =
      (.invalidToken, ⟨[], [], []⟩) ∧
    refresh ⟨[], [], []⟩
        (some ⟨⟨"uid1", "a@x.com", some "tid1", "refresh", 1000⟩,
          JWT_REFRESH_SECRET⟩) 0 =
      (.tokenNotFound, ⟨[], [], []⟩) ∧
    refresh ⟨[], [("tid1",
        ⟨⟨⟨"uid1", "a@x.com", some "tid1", "refresh", 1000⟩,
          JWT_REFRESH_SECRET⟩, "uid1", 1000000⟩)], []⟩
        (some ⟨⟨"uid1", "a@x.com", some "tid1", "refresh", 1000⟩,
          JWT_REFRESH_SECRET⟩) 0 =
      (.ok (jwtSign ⟨"uid1", "a@x.com", none, "access",
              expAt 0 ACCESS_TTL_SEC⟩ JWT_SECRET)
         ACCESS_TOKEN_EXPIRY,
       ⟨[], [("tid1",
        ⟨⟨⟨"uid1", "a@x.com", some "tid1", "refresh", 1000⟩,
          JWT_REFRESH_SECRET⟩, "uid1", 1000000⟩)], []⟩) :=
  ⟨(refresh_spec _ _ _).1 (by decide),
   (refresh_spec _ _ _).2.1 ⟨"uid1", "a@x.com", some "tid1", "refresh", 1000⟩
     (by decide) rfl,
   (refresh_spec _ _ _).2.2.2 ⟨"uid1", "a@x.com", some "tid1", "refresh", 1000⟩
     ⟨⟨⟨"uid1", "a@x.com", some "tid1", "refresh", 1000⟩,
       JWT_REFRESH_SECRET⟩, "uid1", 1000000⟩
     (by decide) (by decide) rfl⟩

/-! ## Reachable-state invariant for the v1 service -/

/-- One single-threaded request against the v1 service. -/
inductive Op where
  | register (newId email password : String) (name : Option String)
  | login (email password : String) (now : Int)

/-- The state transition of one request; the response goes to the caller and
does not feed back into the stored state. -/
def step (st : ServiceState) : Op → ServiceState
  | .register newId email password name => (register st newId email password name).2
  | .login email password now => (login st email password now).2

/-- The state after serving a sequence of requests. -/
def run (st : ServiceState) (ops : List Op) : ServiceState :=
  ops.foldl step st

/-- Every stored failed-attempt count is at most `MAX_ATTEMPTS`. -/
def AttemptsBounded (m : AttemptsMap) : Prop :=
  ∀ p ∈ m, p.2.count ≤ MAX_ATTEMPTS

theorem attemptsBounded_mapDelete {m : AttemptsMap} (h : AttemptsBounded m)
    (k : String) : AttemptsBounded (mapDelete m k) :=
  fun p hp => h p (mem_mapDelete hp)

/-- The map `checkAttempts` leaves behind is the input map or the input map
with the checked identity deleted. -/
theorem checkAttempts_snd_cases (m : AttemptsMap) (email : String) (now : Int) :
    (checkAttempts m email now).2 = m ∨
    (checkAttempts m email now).2 = mapDelete m email := by
  unfold checkAttempts
  cases mapGet m email with
  | none => exact Or.inl rfl
  | some a =>
    dsimp only
    by_cases h1 : now - a.last > LOCKOUT_MS
    · rw [if_pos h1]
      exact Or.inr rfl
    · rw [if_neg h1]
      by_cases h2 : a.count ≥ MAX_ATTEMPTS
      · rw [if_pos h2]
        exact Or.inl rfl
      · rw [if_neg h2]
        exact Or.inl rfl

theorem attemptsBounded_check {m : AttemptsMap} (h : AttemptsBounded m)
    (email : String) (now : Int) :
    AttemptsBounded (checkAttempts m email now).2 := by
  rcases checkAttempts_snd_cases m email now with he | he <;> rw [he]
  · exact h
  · exact attemptsBounded_mapDelete h email

/-- When `check` allows the call, the map it leaves behind holds either no
state for the identity or a state strictly below the threshold. -/
theorem checkAttempts_allowed_gate (m : AttemptsMap) (email : String)
    (now : Int) (hall : (checkAttempts m email now).1.allowed = true) :
    mapGet (checkAttempts m email now).2 email = none ∨
    ∃ a, mapGet (checkAttempts m email now).2 email = some a ∧
      a.count < MAX_ATTEMPTS := by
  cases hg : mapGet m email with
  | none =>
    left
    simp only [checkAttempts, hg]
  | some a =>
    by_cases h1 : now - a.last > LOCKOUT_MS
    · left
      simp only [checkAttempts, hg, if_pos h1]
      exact mapGet_mapDelete m email
    · by_cases h2 : a.count ≥ MAX_ATTEMPTS
      · exfalso
        simp only [checkAttempts, hg, if_neg h1, if_pos h2] at hall
        exact Bool.false_ne_true hall
      · right
        refine ⟨a, ?_, lt_of_not_ge h2⟩
        simp only [checkAttempts, hg, if_neg h1, if_neg h2]

/-- Recording a failure against a map whose entry for the identity is absent
or below the threshold keeps every count within the threshold. -/
theorem attemptsBounded_record_false {m : AttemptsMap} (h : AttemptsBounded m)
    (email : String) (now : Int)
    (hgate : mapGet m email = none ∨
      ∃ a, mapGet m email = some a ∧ a.count < MAX_ATTEMPTS) :
    AttemptsBounded (recordAttempt m email false now) := by
  intro p hp
  have hr : recordAttempt m email false now =
      mapSet m email ⟨((mapGet m email).getD ⟨0, 0⟩).count + 1, now⟩ := by
    simp [recordAttempt]
  rw [hr] at hp
  rcases mem_mapSet hp with hpe | hpm
  · rcases hgate with hnone | ⟨a, hga, hlt⟩
    · rw [hpe]
      simp only [hnone, Option.getD_none]
      exact Nat.succ_le_of_lt (by norm_num [MAX_ATTEMPTS])
    · rw [hpe]
      simp only [hga, Option.getD_some]
      exact Nat.succ_le_of_lt hlt
  · exact h p hpm

theorem attemptsBounded_record_true {m : AttemptsMap} (h : AttemptsBounded m)
    (email : String) (now : Int) :
    AttemptsBounded (recordAttempt m email true now) := by
  have hr : recordAttempt m email true now = mapDelete m email := by
    simp [recordAttempt]
  rw [hr]
  exact attemptsBounded_mapDelete h email

/-- Register never touches the attempts map. -/
theorem register_attempts_eq (st : ServiceState) (newId email password : String)
    (name : Option String) :
    (register st newId email password name).2.attempts = st.attempts := by
  simp only [register]
  by_cases hguard : email = "" ∨ password = ""
  · rw [if_pos hguard]
  · rw [if_neg hguard]
    by_cases hex : (mapGet st.users email).isSome
    · rw [if_pos hex]
    · rw [if_neg hex]

/-- The attempts map a login leaves behind, by branch: untouched (bad
input), the post-check map (locked out), a failure recorded against the
post-check map under an allowing check, or a success recorded against the
post-check map. -/
theorem login_attempts_cases (st : ServiceState) (email password : String)
    (now : Int) :
    (login st email password now).2.attempts = st.attempts ∨
    (login st email password now).2.attempts =
      (checkAttempts st.attempts email now).2 ∨
    ((checkAttempts st.attempts email now).1.allowed = true ∧
     (login st email password now).2.attempts =
       recordAttempt (checkAttempts st.attempts email now).2 email false now) ∨
    (login st email password now).2.attempts =
      recordAttempt (checkAttempts st.attempts email now).2 email true now := by
  simp only [login]
  by_cases hguard : email = "" ∨ password = ""
  · rw [if_pos hguard]
    exact Or.inl rfl
  · rw [if_neg hguard]
    by_cases hall : (checkAttempts st.attempts email now).1.allowed = false
    · rw [if_pos hall]
      exact Or.inr (Or.inl rfl)
    · rw [if_neg hall]
      have hall2 : (checkAttempts st.attempts email now).1.allowed = true := by
        revert hall
        cases (checkAttempts st.attempts email now).1.allowed <;> simp
      cases mapGet st.users email with
      | none => exact Or.inr (Or.inr (Or.inl ⟨hall2, rfl⟩))
      | some u =>
        dsimp only
        by_cases hm : u.password ≠ password
        · rw [if_pos hm]
          exact Or.inr (Or.inr (Or.inl ⟨hall2, rfl⟩))
        · rw [if_neg hm]
          exact Or.inr (Or.inr (Or.inr rfl))

/-- One request preserves the bound on every stored attempt count. -/
theorem step_preserves (st : ServiceState) (op : Op)
    (h : AttemptsBounded st.attempts) : AttemptsBounded (step st op).attempts := by
  cases op with
  | register newId email password name =>
    rw [step, register_attempts_eq]
    exact h
  | login email password now =>
    rw [step]
    rcases login_attempts_cases st email password now with
      he | he | ⟨hall, he⟩ | he <;> rw [he]
    · exact h
    · exact attemptsBounded_check h email now
    · exact attemptsBounded_record_false (attemptsBounded_check h email now)
        email now (checkAttempts_allowed_gate st.attempts email now hall)
    · exact attemptsBounded_record_true (attemptsBounded_check h email now)
        email now

/-- C10: starting from a fresh server (empty attempts map) with any loaded
user table, every state reachable by a single-threaded sequence of register
and login requests keeps every identity's stored failed-attempt count at or
below `MAX_ATTEMPTS` (5): failures are only recorded after a `check` that
allowed the call. -/
theorem run_attempts_bounded (users0 : UsersMap) (ops : List Op) :
    AttemptsBounded (run ⟨users0, []⟩ ops).attempts := by
  have key : ∀ (ops2 : List Op) (st : ServiceState), AttemptsBounded st.attempts →
      AttemptsBounded (run st ops2).attempts := by
    intro ops2
    induction ops2 with
    | nil => exact fun st h => h
    | cons op rest ih => exact fun st h => ih _ (step_preserves st op h)
  exact key ops ⟨users0, []⟩ (fun p hp => absurd hp (List.not_mem_nil p))

end AuthService
